import Mathlib

/-!
Shallow embedding of the treehacks-25 air-instrument core
(vision/config.py, vision/models.py, vision/pole_detection.py,
src/hand_tracking.py, src/note_engine.py, vision/audio_engine.py,
vision/server.py), together with theorems settling the specification
claims about it.

Conventions of the embedding:
* Python floats are modelled as rationals (ℚ); Python ints as ℤ.
* `int(x)` (truncation toward zero) is `pyInt`; `round(x)`
  (round half to even) is `pyRound`; `round(x, 3)` is `pyRound3`.
* `np.clip(x, lo, hi)` is `clipQ x lo hi`.
* Time-stamp fields of mutable state (e.g. `last_strum_time`) and
  draw-only data are dropped; real times are passed explicitly where a
  claim needs them (the MIDI recorder).
* External collaborators (OpenCV colour segmentation, MediaPipe, the
  FluidSynth driver) are abstracted as inputs: `update_pole_state`
  receives the result of `detect_pole_endpoints` instead of a frame,
  and the audio engine records the note-on / note-off messages it
  would send to the synthesiser in a log.
-/

-- ---------------------------------------------------------------------------
-- Python primitive semantics
-- ---------------------------------------------------------------------------

/-- `np.clip(x, lo, hi)` on scalars: `min (max x lo) hi`. -/
def clipQ (x lo hi : ℚ) : ℚ := min (max x lo) hi

/-- Python `int(x)`: truncation toward zero. -/
def pyInt (q : ℚ) : ℤ := if 0 ≤ q then ⌊q⌋ else ⌈q⌉

/-- Python `round(x)`: round half to even (banker's rounding). -/
def pyRound (q : ℚ) : ℤ :=
  if q - ⌊q⌋ < 1/2 then ⌊q⌋
  else if 1/2 < q - ⌊q⌋ then ⌊q⌋ + 1
  else if ⌊q⌋ % 2 = 0 then ⌊q⌋ else ⌊q⌋ + 1

/-- Python `round(x, 3)`: round to three decimal places. -/
def pyRound3 (q : ℚ) : ℚ := (pyRound (q * 1000) : ℚ) / 1000

-- ---------------------------------------------------------------------------
-- vision/config.py — constants used by the embedded components
-- ---------------------------------------------------------------------------

/-- `STRUM_VELOCITY_THRESHOLD = 0.008`. -/
def STRUM_VELOCITY_THRESHOLD : ℚ := 0.008

/-- `STRUM_COOLDOWN_FRAMES = 4`. -/
def STRUM_COOLDOWN_FRAMES : ℕ := 4

/-- `STRING_BASE_MIDI`: open-string MIDI tables keyed by string count
(3–6); callers only access keys 3–6, the final branch is the 6-string
table. -/
def STRING_BASE_MIDI (n : ℕ) : List ℤ :=
  if n = 3 then [40, 45, 50]
  else if n = 4 then [40, 45, 50, 55]
  else if n = 5 then [40, 45, 50, 55, 59]
  else [40, 45, 50, 55, 59, 64]

/-- `NUM_FRETS = 6`. -/
def NUM_FRETS : ℤ := 6

/-- `POLE_SEMITONE_RANGE = 14`. -/
def POLE_SEMITONE_RANGE : ℤ := 14

/-- `MIDI_VELOCITY_MIN = 70`. -/
def MIDI_VELOCITY_MIN : ℤ := 70

/-- `MIDI_VELOCITY_MAX = 110`. -/
def MIDI_VELOCITY_MAX : ℤ := 110

/-- `NOTE_DURATION_MIN = 1.5`. -/
def NOTE_DURATION_MIN : ℚ := 1.5

/-- `NOTE_DURATION_MAX = 2.5`. -/
def NOTE_DURATION_MAX : ℚ := 2.5

/-- `STRUM_VEL_MAP_MIN = 0.02`. -/
def STRUM_VEL_MAP_MIN : ℚ := 0.02

/-- `STRUM_VEL_MAP_MAX = 0.15`. -/
def STRUM_VEL_MAP_MAX : ℚ := 0.15

/-- `POLE_SMOOTH_ALPHA = 0.6`. -/
def POLE_SMOOTH_ALPHA : ℚ := 0.6

-- ---------------------------------------------------------------------------
-- vision/models.py — data classes
-- ---------------------------------------------------------------------------

/-- `Vec3`: simple 3D vector for landmark math (x, y, z). -/
structure Vec3 where
  x : ℚ
  y : ℚ
  z : ℚ
  deriving DecidableEq

/-- `StrumEvent`: direction ("down" / "up") plus raw crossing velocity. -/
structure StrumEvent where
  direction : String
  velocity : ℚ
  deriving DecidableEq

/-- `FretboardState`: the strum-detection fields.  Wall-clock fields
(`last_strum_time`, `last_note_time`) and draw-only fields
(`last_notes`, wrists) play no role in the claims and are omitted. -/
structure FretboardState where
  prev_perp_dist : ℚ
  strum_cooldown : ℕ
  last_strum_direction : String
  strum_count : ℕ
  perp_history : List ℚ
  strum_flash_frames : ℕ
  deriving DecidableEq

/-- Default `FretboardState()`: idle, no history. -/
def initFretboard : FretboardState :=
  { prev_perp_dist := 0, strum_cooldown := 0, last_strum_direction := "",
    strum_count := 0, perp_history := [], strum_flash_frames := 0 }

/-- `PoleState`: smoothed endpoints, `detected` flag, hand position. -/
structure PoleState where
  end_a : Option (ℤ × ℤ)
  end_b : Option (ℤ × ℤ)
  detected : Bool
  position : ℚ
  deriving DecidableEq

/-- `PhoneTouch`: touch id, normalized (x, y), resolved string index. -/
structure PhoneTouch where
  id : ℤ
  x : ℚ
  y : ℚ
  string : ℤ
  deriving DecidableEq

-- ---------------------------------------------------------------------------
-- src/hand_tracking.py — strum detection
-- ---------------------------------------------------------------------------

/-- `deque(maxlen=5)` append: push and keep the most recent 5 samples. -/
def pushHistory (h : List ℚ) (x : ℚ) : List ℚ :=
  let h2 := h ++ [x]
  h2.drop (h2.length - 5)

/-- `detect_strum(fretboard, perp_dist)`: the debounced sign-crossing
detector, returning the updated state and an optional event. -/
def detect_strum (fb : FretboardState) (perp_dist : ℚ) :
    FretboardState × Option StrumEvent :=
  let hist := pushHistory fb.perp_history perp_dist
  if 0 < fb.strum_cooldown then
    ({ fb with perp_history := hist,
               strum_cooldown := fb.strum_cooldown - 1,
               prev_perp_dist := perp_dist }, none)
  else if hist.length < 2 then
    ({ fb with perp_history := hist, prev_perp_dist := perp_dist }, none)
  else if fb.prev_perp_dist * perp_dist < 0 then
    if STRUM_VELOCITY_THRESHOLD < |perp_dist - fb.prev_perp_dist| then
      ({ fb with perp_history := hist,
                 strum_cooldown := STRUM_COOLDOWN_FRAMES,
                 last_strum_direction :=
                   if fb.prev_perp_dist < perp_dist then "down" else "up",
                 strum_count := fb.strum_count + 1,
                 strum_flash_frames := 18,
                 prev_perp_dist := perp_dist },
       some { direction := if fb.prev_perp_dist < perp_dist then "down" else "up",
              velocity := |perp_dist - fb.prev_perp_dist| })
    else
      ({ fb with perp_history := hist, prev_perp_dist := perp_dist }, none)
  else
    ({ fb with perp_history := hist, prev_perp_dist := perp_dist }, none)

/-- Feed a sequence of perpendicular-distance samples through
`detect_strum`, one tick per sample, collecting the per-tick outputs. -/
def runStrum : FretboardState → List ℚ → List (Option StrumEvent)
  | _, [] => []
  | fb, d :: ds => (detect_strum fb d).2 :: runStrum (detect_strum fb d).1 ds

-- ---------------------------------------------------------------------------
-- src/note_engine.py — pure note mapping
-- ---------------------------------------------------------------------------

/-- `_NOTE_NAMES`: the twelve chromatic pitch-class names, naturals
followed by their sharps. -/
def NOTE_NAMES : List String :=
  List.join
    [["C", "C#"], ["D", "D#"], ["E"], ["F", "F#"], ["G", "G#"], ["A", "A#"], ["B"]]

/-- `midi_note_name(midi_note)`: display name such as "C4"
(Python `//` is floor division, `%` on a positive modulus matches
`Int.emod`). -/
def midi_note_name (midi_note : ℤ) : String :=
  NOTE_NAMES.getD (midi_note % 12).toNat "" ++ toString (Int.fdiv midi_note 12 - 1)

/-- `NoteResult`. -/
structure NoteResult where
  midi_note : ℤ
  velocity : ℤ
  duration : ℚ
  name : String
  deriving DecidableEq

/-- `NoteEngine` after `__init__`: clamped string count and its
open-string table. -/
structure NoteEngine where
  num_strings : ℕ
  base_midi : List ℤ
  deriving DecidableEq

/-- `NoteEngine(num_strings)`: `num_strings` clamped to `[3, 6]`,
`base_midi = STRING_BASE_MIDI[num_strings]`. -/
def NoteEngine.make (num_strings : ℤ) : NoteEngine :=
  let ns := max 3 (min 6 num_strings)
  { num_strings := ns.toNat, base_midi := STRING_BASE_MIDI ns.toNat }

/-- `_string_to_base_midi(string_index)`: table entry at the clamped
index. -/
def string_to_base_midi (e : NoteEngine) (string_index : ℤ) : ℤ :=
  let idx : ℤ := max 0 (min string_index ((e.base_midi.length : ℤ) - 1))
  e.base_midi.getD idx.toNat 0

/-- `_fret_to_semitones(fret_y) = int(np.clip(fret_y * NUM_FRETS, 0,
NUM_FRETS - 1))`. -/
def fret_to_semitones (fret_y : ℚ) : ℤ :=
  pyInt (clipQ (fret_y * (NUM_FRETS : ℚ)) 0 ((NUM_FRETS : ℚ) - 1))

/-- `_pole_to_semitones(pole_position) = int(round(clip(p, 0, 1) *
POLE_SEMITONE_RANGE))`. -/
def pole_to_semitones (pole_position : ℚ) : ℤ :=
  pyRound (clipQ pole_position 0 1 * (POLE_SEMITONE_RANGE : ℚ))

/-- `_velocity_to_midi(strum_velocity)`. -/
def velocity_to_midi (strum_velocity : ℚ) : ℤ :=
  let t := clipQ ((strum_velocity - STRUM_VEL_MAP_MIN)
      / (STRUM_VEL_MAP_MAX - STRUM_VEL_MAP_MIN)) 0 1
  pyInt ((MIDI_VELOCITY_MIN : ℚ) + t * ((MIDI_VELOCITY_MAX : ℚ) - (MIDI_VELOCITY_MIN : ℚ)))

/-- `_velocity_to_duration(strum_velocity)`. -/
def velocity_to_duration (strum_velocity : ℚ) : ℚ :=
  let t := clipQ ((strum_velocity - STRUM_VEL_MAP_MIN)
      / (STRUM_VEL_MAP_MAX - STRUM_VEL_MAP_MIN)) 0 1
  NOTE_DURATION_MIN + t * (NOTE_DURATION_MAX - NOTE_DURATION_MIN)

/-- `compute_note(string_index, fret_y, pole_position, strum_velocity)`;
the operands of the final clip are Python ints, so the clip is an
integer clamp. -/
def compute_note (e : NoteEngine) (string_index : ℤ)
    (fret_y pole_position strum_velocity : ℚ) : NoteResult :=
  let base := string_to_base_midi e string_index
  let fret_sems := fret_to_semitones fret_y
  let pole_sems := pole_to_semitones pole_position
  let midi_note := max 0 (min 127 (base + pole_sems + fret_sems))
  { midi_note := midi_note,
    velocity := velocity_to_midi strum_velocity,
    duration := velocity_to_duration strum_velocity,
    name := midi_note_name midi_note }

/-- The note number exactly as the claim words it: clamp(base +
fret_offset + pole_offset, 0, 127) with fret_offset = floor(f * NUM_FRETS)
clamped to [0, NUM_FRETS - 1] and pole_offset = round(p *
POLE_SEMITONE_RANGE).  Stated from the claim, to be compared with
`compute_note`. -/
def claimed_midi_note (e : NoteEngine) (string_index : ℤ)
    (fret_position pole_position : ℚ) : ℤ :=
  let base := string_to_base_midi e string_index
  let fret_offset := max 0 (min (NUM_FRETS - 1) ⌊fret_position * (NUM_FRETS : ℚ)⌋)
  let pole_offset := pyRound (pole_position * (POLE_SEMITONE_RANGE : ℚ))
  max 0 (min 127 (base + fret_offset + pole_offset))

-- ---------------------------------------------------------------------------
-- vision/pole_detection.py
-- ---------------------------------------------------------------------------

/-- `_smooth_point(old, new, alpha)`: EMA on integer pixel points. -/
def smooth_point (old : Option (ℤ × ℤ)) (new : ℤ × ℤ) (alpha : ℚ) : ℤ × ℤ :=
  match old with
  | none => new
  | some o => (pyInt ((o.1 : ℚ) * alpha + (new.1 : ℚ) * (1 - alpha)),
               pyInt ((o.2 : ℚ) * alpha + (new.2 : ℚ) * (1 - alpha)))

/-- `update_pole_state(pole, frame)`, abstracted over the result of
`detect_pole_endpoints(frame)` (the OpenCV colour segmentation is an
external collaborator; it yields two centroids, or `(None, None)` when
fewer than two qualifying colour regions are found). -/
def update_pole_state (pole : PoleState) (raw_a raw_b : Option (ℤ × ℤ)) :
    PoleState :=
  match raw_a, raw_b with
  | some a, some b =>
      { pole with
        end_a := some (smooth_point pole.end_a a POLE_SMOOTH_ALPHA),
        end_b := some (smooth_point pole.end_b b POLE_SMOOTH_ALPHA),
        detected := true }
  | _, _ =>
      -- keep the last known endpoints; only mark undetected when an
      -- endpoint was never seen
      if pole.end_a.isNone || pole.end_b.isNone then
        { pole with detected := false }
      else pole

/-- `compute_pole_position(wrist, pole, frame_w, frame_h)`. -/
def compute_pole_position (wrist : Vec3) (pole : PoleState)
    (frame_w frame_h : ℤ) : ℚ :=
  match pole.end_a, pole.end_b with
  | some a, some b =>
      let wx := wrist.x * (frame_w : ℚ)
      let wy := wrist.y * (frame_h : ℚ)
      let abx : ℤ := b.1 - a.1
      let aby : ℤ := b.2 - a.2
      let ab_len_sq : ℤ := abx * abx + aby * aby
      if (ab_len_sq : ℚ) < 0.00000001 then 0.5
      else
        clipQ (((wx - (a.1 : ℚ)) * (abx : ℚ) + (wy - (a.2 : ℚ)) * (aby : ℚ))
          / (ab_len_sq : ℚ)) 0 1
  | _, _ => 0.5

-- ---------------------------------------------------------------------------
-- vision/audio_engine.py
-- ---------------------------------------------------------------------------

/-- A MIDI message sent to the synthesiser on channel 0. -/
inductive AudioMsg where
  | noteon (midi_note velocity : ℤ)
  | noteoff (midi_note : ℤ)
  deriving DecidableEq

/-- The audio engine's state: readiness, the per-pitch generation
dictionary `_note_gen`, and the log of messages sent to the synth. -/
structure AudioState where
  ready : Bool
  note_gen : List (ℤ × ℕ)
  log : List AudioMsg
  deriving DecidableEq

/-- `AudioEngine.__init__` outcome: `ready` records whether FluidSynth
initialised; dictionary empty, nothing sent yet. -/
def initAudio (ready : Bool) : AudioState :=
  { ready := ready, note_gen := [], log := [] }

/-- Python `dict.get(k, 0)` on the association list. -/
def dictGet (d : List (ℤ × ℕ)) (k : ℤ) : ℕ := ((d.lookup k).getD 0)

/-- Python `dict[k] = v`: replace the existing binding or append. -/
def dictSet : List (ℤ × ℕ) → ℤ → ℕ → List (ℤ × ℕ)
  | [], k, v => [(k, v)]
  | p :: rest, k, v =>
      if p.1 = k then (k, v) :: rest else p :: dictSet rest k v

/-- `play_note(midi_note, velocity, duration)`: clamp the pitch and
velocity, bump the pitch's generation, send note-on, and return the
`(pitch, generation)` pair captured by the scheduled note-off timer
(`none` when the engine is not ready and the call is a no-op).
`duration` only sets the timer delay, which is real time. -/
def play_note (s : AudioState) (midi_note velocity : ℤ) (_duration : ℚ) :
    AudioState × Option (ℤ × ℕ) :=
  if s.ready then
    let n := max 0 (min 127 midi_note)
    let v := max 0 (min 127 velocity)
    let gen := dictGet s.note_gen n + 1
    ({ s with note_gen := dictSet s.note_gen n gen,
              log := s.log ++ [AudioMsg.noteon n v] },
     some (n, gen))
  else (s, none)

/-- `_note_off(midi_note, gen)`: the timer callback; sends note-off only
if `gen` is still the pitch's current generation. -/
def note_off (s : AudioState) (midi_note : ℤ) (gen : ℕ) : AudioState :=
  if s.ready then
    if dictGet s.note_gen midi_note ≠ gen then s
    else { s with log := s.log ++ [AudioMsg.noteoff midi_note] }
  else s

/-- Number of note-off messages for a pitch in the log. -/
def countNoteoff (log : List AudioMsg) (n : ℤ) : ℕ :=
  log.count (AudioMsg.noteoff n)

/-- The attribute names defined on `AudioEngine` (methods, properties,
class attributes, and the instance attributes assigned in
`__init__`). -/
def audio_engine_members : List String :=
  ["__init__", "_init_synth", "_FALLBACK_PATHS", "ready", "play_note",
   "_note_off", "stop_all", "shutdown", "_sf_path", "_gain", "_program",
   "_synth", "_sf_id", "_active_timers", "_lock", "_note_gen"]

-- ---------------------------------------------------------------------------
-- vision/server.py — instrument map, strum handling, MIDI recorder
-- ---------------------------------------------------------------------------

/-- `INSTRUMENT_PROGRAM_MAP`. -/
def INSTRUMENT_PROGRAM_MAP : List (String × ℤ) :=
  [("guitar", 25), ("violin", 40), ("cello", 42), ("ukulele", 24),
   ("bass", 32), ("harp", 46), ("banjo", 105), ("sitar", 104)]

/-- The `fretted` dictionary built by `handle_strum`: for touches on the
same string the greater y wins. -/
def buildFretted (touches : List PhoneTouch) : List (ℤ × ℚ) :=
  touches.foldl
    (fun f t =>
      match f.lookup t.string with
      | none => f ++ [(t.string, t.y)]
      | some y => if y < t.y then f.map (fun p => if p.1 = t.string then (t.string, t.y) else p) else f)
    []

/-- `handle_strum`: resolve which strings to play from the phone
touches, and compute each string's note; the list of `NoteResult`s is
what gets sent to `audio.play_note` / `midi_recorder.record`, in loop
order. -/
def handle_strum (touches : List PhoneTouch) (pole_position : ℚ)
    (strum_velocity : ℚ) (e : NoteEngine) : List NoteResult :=
  let fretted := buildFretted touches
  let strings_to_play : List ℤ :=
    if fretted.isEmpty then (List.range e.num_strings).map Int.ofNat
    else (fretted.map Prod.fst).mergeSort (fun a b => decide (a ≤ b))
  strings_to_play.map (fun s =>
    match fretted.lookup s with
    | some y => compute_note e s y pole_position strum_velocity
    | none => compute_note e s 0 0 strum_velocity)

/-- A recorded MIDI event (`MidiRecorder.record`'s dict). -/
structure RecEvent where
  time : ℚ
  midi_note : ℤ
  velocity : ℤ
  duration : ℚ
  name : String
  deriving DecidableEq

/-- `MidiRecorder` state. -/
structure MidiRecorder where
  recording : Bool
  events : List RecEvent
  start_time : ℚ
  deriving DecidableEq

/-- `MidiRecorder()`. -/
def initRecorder : MidiRecorder :=
  { recording := false, events := [], start_time := 0 }

/-- `MidiRecorder.start()`, with the wall-clock time passed in. -/
def MidiRecorder.start (_r : MidiRecorder) (now : ℚ) : MidiRecorder :=
  { recording := true, events := [], start_time := now }

/-- `MidiRecorder.stop()`: returns the events and clears them. -/
def MidiRecorder.stop (r : MidiRecorder) : MidiRecorder × List RecEvent :=
  ({ r with recording := false, events := [] }, r.events)

/-- `MidiRecorder.record(...)`, with the wall-clock time passed in. -/
def MidiRecorder.record (r : MidiRecorder) (now : ℚ) (midi_note velocity : ℤ)
    (duration : ℚ) (name : String) : MidiRecorder :=
  if r.recording then
    { r with events := r.events ++
        [{ time := pyRound3 (now - r.start_time), midi_note := midi_note,
           velocity := velocity, duration := pyRound3 duration, name := name }] }
  else r

/-- One `record` call in a recorder run: its wall-clock time and the
note data. -/
structure RecordCall where
  at_time : ℚ
  midi_note : ℤ
  velocity : ℤ
  duration : ℚ
  name : String
  deriving DecidableEq

/-- A full recorder run: `start` at `t0`, then the `record` calls in
order, then `stop`; the value is the event list `stop` returns. -/
def recorderRun (t0 : ℚ) (calls : List RecordCall) : List RecEvent :=
  ((calls.foldl
      (fun r c => r.record c.at_time c.midi_note c.velocity c.duration c.name)
      (initRecorder.start t0)).stop).2

-- ---------------------------------------------------------------------------
-- Helper lemmas
-- ---------------------------------------------------------------------------

theorem clipQ_le_hi (x lo hi : ℚ) : clipQ x lo hi ≤ hi := min_le_right _ _

theorem lo_le_clipQ (x : ℚ) {lo hi : ℚ} (h : lo ≤ hi) : lo ≤ clipQ x lo hi :=
  le_min (le_max_right _ _) h

theorem clipQ_mono (lo hi : ℚ) {x y : ℚ} (h : x ≤ y) :
    clipQ x lo hi ≤ clipQ y lo hi :=
  min_le_min (max_le_max h le_rfl) le_rfl

theorem clipQ_of_mem {x lo hi : ℚ} (h0 : lo ≤ x) (h1 : x ≤ hi) :
    clipQ x lo hi = x := by
  unfold clipQ
  rw [max_eq_left h0, min_eq_left h1]

theorem pyInt_of_nonneg {q : ℚ} (h : 0 ≤ q) : pyInt q = ⌊q⌋ := if_pos h

-- ---------------------------------------------------------------------------
-- Claim theorems
-- ---------------------------------------------------------------------------

/-- C1: evaluation at the failing input.  A pole that has locked on
(both smoothed endpoints set, `detected = true`) and then sees fewer
than two qualifying colour regions for 5 consecutive frames is left
completely unchanged by `update_pole_state`: the endpoints are indeed
retained, but `detected` stays `true` — it does not become `false` as
the claim states, because the missed-frame branch only clears the flag
while an endpoint is still unset. -/
theorem claim_C1 :
    update_pole_state (update_pole_state (update_pole_state (update_pole_state
      (update_pole_state
        { end_a := some (120, 200), end_b := some (400, 210),
          detected := true, position := 1/2 }
        none none) none none) none none) none none) none none
    = { end_a := some (120, 200), end_b := some (400, 210),
        detected := true, position := 1/2 } := rfl

/-- C2: the `set_instrument` handler in `server.py` resolves the
browser's "guitar" to GM program 25 and then invokes `set_program` on
the audio engine, but `set_program` is not among the attributes the
`AudioEngine` class defines, so the call raises `AttributeError`
instead of changing the instrument. -/
theorem claim_C2 :
    INSTRUMENT_PROGRAM_MAP.lookup "guitar" = some 25 ∧
    audio_engine_members.contains "set_program" = false := by
  constructor <;> rfl

theorem fret_to_semitones_eq {f : ℚ} (hf0 : 0 ≤ f) :
    fret_to_semitones f = max 0 (min (NUM_FRETS - 1) ⌊f * (NUM_FRETS : ℚ)⌋) := by
  unfold fret_to_semitones NUM_FRETS
  push_cast
  have h6 : (0 : ℚ) ≤ f * 6 := mul_nonneg hf0 (by norm_num)
  have hclip : clipQ (f * 6) 0 (6 - 1) = min (f * 6) 5 := by
    unfold clipQ
    rw [max_eq_left h6]
    norm_num
  rw [hclip, pyInt_of_nonneg (le_min h6 (by norm_num))]
  have hfl0 : 0 ≤ ⌊f * (6 : ℚ)⌋ := Int.floor_nonneg.mpr h6
  rcases le_total (f * 6) (5 : ℚ) with h | h
  · have hle : ⌊f * (6 : ℚ)⌋ ≤ 5 := by
      have := Int.floor_le_floor h
      simpa using this
    rw [min_eq_left h]
    omega
  · have h5 : (5 : ℤ) ≤ ⌊f * (6 : ℚ)⌋ := by
      have := Int.floor_le_floor h
      simpa using this
    rw [min_eq_right h]
    simp only [Int.floor_ofNat]
    omega

theorem pole_to_semitones_eq {p : ℚ} (hp0 : 0 ≤ p) (hp1 : p ≤ 1) :
    pole_to_semitones p = pyRound (p * (POLE_SEMITONE_RANGE : ℚ)) := by
  unfold pole_to_semitones
  rw [clipQ_of_mem hp0 hp1]

/-- C3: for fret and pole positions in [0, 1], `compute_note` returns
the MIDI note the claim describes: clamp(base + fret_offset +
pole_offset, 0, 127) with base the open-string table entry at the
clamped string index, fret_offset = floor(fret_position * NUM_FRETS)
clamped to [0, NUM_FRETS - 1], and pole_offset = round(pole_position *
POLE_SEMITONE_RANGE) — the continuous neck-slide scheme. -/
theorem claim_C3 (num_strings string_index : ℤ) (f p sv : ℚ)
    (hf0 : 0 ≤ f) (hf1 : f ≤ 1) (hp0 : 0 ≤ p) (hp1 : p ≤ 1) :
    (compute_note (NoteEngine.make num_strings) string_index f p sv).midi_note
      = claimed_midi_note (NoteEngine.make num_strings) string_index f p := by
  simp only [compute_note, claimed_midi_note, fret_to_semitones_eq hf0,
    pole_to_semitones_eq hp0 hp1]
  omega

/-- C3 witness: a concrete instantiation (6 strings, string 2, fret
position 1/2, pole position 3/10, strum velocity 1/20). -/
theorem claim_C3_witness :
    (compute_note (NoteEngine.make 6) 2 (1/2) (3/10) (1/20)).midi_note
      = claimed_midi_note (NoteEngine.make 6) 2 (1/2) (3/10) :=
  claim_C3 6 2 (1/2) (3/10) (1/20) (by norm_num) (by norm_num) (by norm_num)
    (by norm_num)

theorem strum_norm_clip (sv : ℚ) :
    clipQ ((clipQ sv STRUM_VEL_MAP_MIN STRUM_VEL_MAP_MAX - STRUM_VEL_MAP_MIN)
        / (STRUM_VEL_MAP_MAX - STRUM_VEL_MAP_MIN)) 0 1
      = clipQ ((sv - STRUM_VEL_MAP_MIN)
        / (STRUM_VEL_MAP_MAX - STRUM_VEL_MAP_MIN)) 0 1 := by
  unfold STRUM_VEL_MAP_MIN STRUM_VEL_MAP_MAX
  norm_num
  rcases le_total sv (1/50) with h | h
  · have hin : clipQ sv (1/50) (3/20) = 1/50 := by
      unfold clipQ
      rw [max_eq_right h, min_eq_left (by norm_num)]
    have hr : (sv - 1/50) / (13/100) ≤ 0 := by
      rw [div_le_iff (by norm_num : (0:ℚ) < 13/100)]
      linarith
    have hl : clipQ ((1/50 - 1/50 : ℚ) / (13/100)) 0 1 = 0 := by
      norm_num [clipQ]
    have hrc : clipQ ((sv - 1/50) / (13/100)) 0 1 = 0 := by
      unfold clipQ
      rw [max_eq_right hr, min_eq_left (by norm_num)]
    rw [hin]
    norm_num at hl hrc ⊢
    rw [hl, hrc]
  · rcases le_total sv (3/20) with h2 | h2
    · have hin : clipQ sv (1/50) (3/20) = sv := clipQ_of_mem h h2
      rw [hin]
    · have hin : clipQ sv (1/50) (3/20) = 3/20 := by
        unfold clipQ
        rw [max_eq_left (by linarith), min_eq_right h2]
      have hr : (1:ℚ) ≤ (sv - 1/50) / (13/100) := by
        rw [le_div_iff (by norm_num : (0:ℚ) < 13/100)]
        linarith
      have hl : clipQ ((3/20 - 1/50 : ℚ) / (13/100)) 0 1 = 1 := by
        norm_num [clipQ]
      have hrc : clipQ ((sv - 1/50) / (13/100)) 0 1 = 1 := by
        unfold clipQ
        rw [max_eq_left (by linarith), min_eq_right hr]
      rw [hin]
      norm_num at hl hrc ⊢
      rw [hl, hrc]

theorem velocity_to_midi_clip (sv : ℚ) :
    velocity_to_midi (clipQ sv STRUM_VEL_MAP_MIN STRUM_VEL_MAP_MAX)
      = velocity_to_midi sv := by
  unfold velocity_to_midi
  rw [strum_norm_clip]

theorem velocity_to_duration_clip (sv : ℚ) :
    velocity_to_duration (clipQ sv STRUM_VEL_MAP_MIN STRUM_VEL_MAP_MAX)
      = velocity_to_duration sv := by
  unfold velocity_to_duration
  rw [strum_norm_clip]

theorem velocity_to_midi_bounds (sv : ℚ) :
    MIDI_VELOCITY_MIN ≤ velocity_to_midi sv ∧
    velocity_to_midi sv ≤ MIDI_VELOCITY_MAX := by
  unfold velocity_to_midi MIDI_VELOCITY_MIN MIDI_VELOCITY_MAX
  set t := clipQ ((sv - STRUM_VEL_MAP_MIN) / (STRUM_VEL_MAP_MAX - STRUM_VEL_MAP_MIN)) 0 1 with ht
  have ht0 : 0 ≤ t := lo_le_clipQ _ (by norm_num)
  have ht1 : t ≤ 1 := clipQ_le_hi _ _ _
  push_cast
  rw [pyInt_of_nonneg (by linarith)]
  constructor
  · rw [Int.le_floor]
    push_cast
    linarith
  · have : (70 : ℚ) + t * (110 - 70) ≤ 110 := by linarith
    calc ⌊(70 : ℚ) + t * (110 - 70)⌋ ≤ ⌊(110 : ℚ)⌋ := Int.floor_le_floor this
    _ = 110 := by norm_num

theorem velocity_to_duration_bounds (sv : ℚ) :
    NOTE_DURATION_MIN ≤ velocity_to_duration sv ∧
    velocity_to_duration sv ≤ NOTE_DURATION_MAX := by
  unfold velocity_to_duration NOTE_DURATION_MIN NOTE_DURATION_MAX
  set t := clipQ ((sv - STRUM_VEL_MAP_MIN) / (STRUM_VEL_MAP_MAX - STRUM_VEL_MAP_MIN)) 0 1 with ht
  have ht0 : 0 ≤ t := lo_le_clipQ _ (by norm_num)
  have ht1 : t ≤ 1 := clipQ_le_hi _ _ _
  norm_num
  constructor <;> linarith

/-- C4: every `compute_note` output is in range — MIDI note in [0, 127],
velocity in [MIDI_VELOCITY_MIN, MIDI_VELOCITY_MAX], duration in
[NOTE_DURATION_MIN, NOTE_DURATION_MAX] — and a strum velocity outside
the raw-velocity mapping bounds yields the same result as its clamp
into those bounds. -/
theorem claim_C4 (num_strings string_index : ℤ) (f p sv : ℚ)
    (hf0 : 0 ≤ f) (hf1 : f ≤ 1) (hp0 : 0 ≤ p) (hp1 : p ≤ 1) :
    0 ≤ (compute_note (NoteEngine.make num_strings) string_index f p sv).midi_note ∧
    (compute_note (NoteEngine.make num_strings) string_index f p sv).midi_note ≤ 127 ∧
    MIDI_VELOCITY_MIN ≤ (compute_note (NoteEngine.make num_strings) string_index f p sv).velocity ∧
    (compute_note (NoteEngine.make num_strings) string_index f p sv).velocity ≤ MIDI_VELOCITY_MAX ∧
    NOTE_DURATION_MIN ≤ (compute_note (NoteEngine.make num_strings) string_index f p sv).duration ∧
    (compute_note (NoteEngine.make num_strings) string_index f p sv).duration ≤ NOTE_DURATION_MAX ∧
    compute_note (NoteEngine.make num_strings) string_index f p sv
      = compute_note (NoteEngine.make num_strings) string_index f p
          (clipQ sv STRUM_VEL_MAP_MIN STRUM_VEL_MAP_MAX) := by
  refine ⟨?_, ?_, (velocity_to_midi_bounds sv).1, (velocity_to_midi_bounds sv).2,
    (velocity_to_duration_bounds sv).1, (velocity_to_duration_bounds sv).2, ?_⟩
  · simp only [compute_note]
    omega
  · simp only [compute_note]
    omega
  · simp only [compute_note, velocity_to_midi_clip, velocity_to_duration_clip]

/-- C4 witness: concrete instantiation with an out-of-range strum
velocity (6 strings, string 0, fret 1/4, pole 1, strum velocity 2). -/
theorem claim_C4_witness :
    0 ≤ (compute_note (NoteEngine.make 6) 0 (1/4) 1 2).midi_note ∧
    (compute_note (NoteEngine.make 6) 0 (1/4) 1 2).midi_note ≤ 127 ∧
    MIDI_VELOCITY_MIN ≤ (compute_note (NoteEngine.make 6) 0 (1/4) 1 2).velocity ∧
    (compute_note (NoteEngine.make 6) 0 (1/4) 1 2).velocity ≤ MIDI_VELOCITY_MAX ∧
    NOTE_DURATION_MIN ≤ (compute_note (NoteEngine.make 6) 0 (1/4) 1 2).duration ∧
    (compute_note (NoteEngine.make 6) 0 (1/4) 1 2).duration ≤ NOTE_DURATION_MAX ∧
    compute_note (NoteEngine.make 6) 0 (1/4) 1 2
      = compute_note (NoteEngine.make 6) 0 (1/4) 1
          (clipQ 2 STRUM_VEL_MAP_MIN STRUM_VEL_MAP_MAX) :=
  claim_C4 6 0 (1/4) 1 2 (by norm_num) (by norm_num) (by norm_num) (by norm_num)

/-- C7: a down-strum with velocity 0.05, no phone touches, and 6
configured strings plays exactly 6 notes, one per string in order, each
computed with fret position 0 and pole position 0, so the MIDI notes
are exactly the open-string base pitches of the 6-string tuning
table — whatever the pole's current neck-slide position is. -/
theorem claim_C7 (pole_position : ℚ) :
    handle_strum [] pole_position 0.05 (NoteEngine.make 6)
      = (List.range 6).map
          (fun s => compute_note (NoteEngine.make 6) (Int.ofNat s) 0 0 0.05) ∧
    (handle_strum [] pole_position 0.05 (NoteEngine.make 6)).map NoteResult.midi_note
      = [40, 45, 50, 55, 59, 64] := by
  have h1 : handle_strum [] pole_position 0.05 (NoteEngine.make 6)
      = (List.range 6).map
          (fun s => compute_note (NoteEngine.make 6) (Int.ofNat s) 0 0 0.05) := rfl
  refine ⟨h1, ?_⟩
  rw [h1, show List.range 6 = [0, 1, 2, 3, 4, 5] from rfl]
  have hf : fret_to_semitones 0 = 0 := by
    norm_num [fret_to_semitones, clipQ, pyInt, NUM_FRETS]
  have hp : pole_to_semitones 0 = 0 := by
    norm_num [pole_to_semitones, clipQ, pyRound, POLE_SEMITONE_RANGE]
  simp [compute_note, hf, hp, string_to_base_midi, NoteEngine.make, STRING_BASE_MIDI]

/-- C10: `detect_strum` requires a strictly negative product of the
previous and current perpendicular distances, so an exactly-zero
previous or current distance never yields an event, regardless of the
crossing velocity. -/
theorem claim_C10 (fb : FretboardState) (d : ℚ) :
    ((detect_strum fb d).2.isSome = true → fb.prev_perp_dist * d < 0) ∧
    (fb.prev_perp_dist = 0 ∨ d = 0 → (detect_strum fb d).2 = none) := by
  constructor
  · intro hs
    simp only [detect_strum] at hs
    by_cases h1 : 0 < fb.strum_cooldown
    · rw [if_pos h1] at hs
      simp at hs
    · rw [if_neg h1] at hs
      by_cases h2 : (pushHistory fb.perp_history d).length < 2
      · rw [if_pos h2] at hs
        simp at hs
      · rw [if_neg h2] at hs
        by_cases h3 : fb.prev_perp_dist * d < 0
        · exact h3
        · rw [if_neg h3] at hs
          simp at hs
  · intro h0
    have hzero : fb.prev_perp_dist * d = 0 := by
      rcases h0 with h | h <;> simp [h]
    have hnlt : ¬(fb.prev_perp_dist * d < 0) := by
      rw [hzero]
      exact lt_irrefl 0
    simp only [detect_strum]
    by_cases h1 : 0 < fb.strum_cooldown
    · rw [if_pos h1]
    · rw [if_neg h1]
      by_cases h2 : (pushHistory fb.perp_history d).length < 2
      · rw [if_pos h2]
      · rw [if_neg h2]
        rw [if_neg hnlt]

/-- C10 witness: the idle state has previous distance 0, so a sample of
5 produces no event. -/
theorem claim_C10_witness : (detect_strum initFretboard 5).2 = none :=
  (claim_C10 initFretboard 5).2 (Or.inl rfl)

theorem one_le_mul_self {c : ℤ} (h : c ≠ 0) : 1 ≤ c * c := by
  rcases h.lt_or_lt with hc | hc <;> nlinarith

/-- C9: for distinct integer endpoints, `compute_pole_position` is
monotone in the reference point's displacement along the segment
direction (measured by the dot product of the pixel-space displacement
with B − A), and its result always lies in [0, 1], for every wrist and
every pole state. -/
theorem claim_C9 :
    (∀ (ax ay bx bY w h : ℤ) (det : Bool) (pos : ℚ) (u v : Vec3),
        ((ax, ay) : ℤ × ℤ) ≠ (bx, bY) →
        0 ≤ (v.x * (w : ℚ) - u.x * (w : ℚ)) * ((bx : ℚ) - (ax : ℚ))
            + (v.y * (h : ℚ) - u.y * (h : ℚ)) * ((bY : ℚ) - (ay : ℚ)) →
        compute_pole_position u
            { end_a := some (ax, ay), end_b := some (bx, bY),
              detected := det, position := pos } w h
          ≤ compute_pole_position v
            { end_a := some (ax, ay), end_b := some (bx, bY),
              detected := det, position := pos } w h) ∧
    (∀ (wrist : Vec3) (pole : PoleState) (w h : ℤ),
        0 ≤ compute_pole_position wrist pole w h ∧
        compute_pole_position wrist pole w h ≤ 1) := by
  constructor
  · intro ax ay bx bY w h det pos u v hne hdot
    have hab : ¬(bx - ax = 0 ∧ bY - ay = 0) := by
      rintro ⟨h1, h2⟩
      apply hne
      rw [Prod.ext_iff]
      constructor <;> [skip; skip] <;> simp <;> omega
    have hlen : (1 : ℤ) ≤ (bx - ax) * (bx - ax) + (bY - ay) * (bY - ay) := by
      rcases Classical.em (bx - ax = 0) with h1 | h1
      · have h2 : bY - ay ≠ 0 := fun h2 => hab ⟨h1, h2⟩
        nlinarith [one_le_mul_self h2, mul_self_nonneg (bx - ax)]
      · nlinarith [one_le_mul_self h1, mul_self_nonneg (bY - ay)]
    have hlenQ : (1 : ℚ) ≤ (((bx - ax) * (bx - ax) + (bY - ay) * (bY - ay) : ℤ) : ℚ) := by
      exact_mod_cast hlen
    have hcond : ¬((((bx - ax) * (bx - ax) + (bY - ay) * (bY - ay) : ℤ) : ℚ) < 0.00000001) := by
      rw [not_lt]
      calc (0.00000001 : ℚ) ≤ 1 := by norm_num
      _ ≤ _ := hlenQ
    simp only [compute_pole_position]
    rw [if_neg hcond, if_neg hcond]
    apply clipQ_mono
    have hpos : (0 : ℚ) < (((bx - ax) * (bx - ax) + (bY - ay) * (bY - ay) : ℤ) : ℚ) := by
      linarith
    rw [div_le_div_iff_of_pos_right hpos]
    push_cast at hdot ⊢
    nlinarith [hdot]
  · intro wrist pole w h
    rcases pole with ⟨ea, eb, det, pos⟩
    rcases ea with _ | a
    · rcases eb with _ | b <;>
        exact ⟨by norm_num [compute_pole_position], by norm_num [compute_pole_position]⟩
    · rcases eb with _ | b
      · exact ⟨by norm_num [compute_pole_position], by norm_num [compute_pole_position]⟩
      · simp only [compute_pole_position]
        split_ifs
        · norm_num
        · exact ⟨lo_le_clipQ _ (by norm_num), clipQ_le_hi _ _ _⟩

/-- C9 witness: concrete horizontal pole from (0,0) to (100,0) in a
640×480 frame, reference points (0,0,0) and (1,0,0). -/
theorem claim_C9_witness :
    compute_pole_position { x := 0, y := 0, z := 0 }
        { end_a := some (0, 0), end_b := some (100, 0),
          detected := true, position := 1/2 } 640 480
      ≤ compute_pole_position { x := 1, y := 0, z := 0 }
        { end_a := some (0, 0), end_b := some (100, 0),
          detected := true, position := 1/2 } 640 480 :=
  claim_C9.1 0 0 100 0 640 480 true (1/2)
    { x := 0, y := 0, z := 0 } { x := 1, y := 0, z := 0 }
    (by decide) (by norm_num)

theorem detect_strum_prev (fb : FretboardState) (d : ℚ) :
    (detect_strum fb d).1.prev_perp_dist = d := by
  simp only [detect_strum]
  split_ifs <;> rfl

theorem detect_strum_some (fb : FretboardState) (d : ℚ) (ev : StrumEvent)
    (h : (detect_strum fb d).2 = some ev) :
    fb.strum_cooldown = 0 ∧
    fb.prev_perp_dist * d < 0 ∧
    STRUM_VELOCITY_THRESHOLD < |d - fb.prev_perp_dist| ∧
    (detect_strum fb d).1.strum_cooldown = STRUM_COOLDOWN_FRAMES := by
  simp only [detect_strum] at h ⊢
  by_cases h1 : 0 < fb.strum_cooldown
  · rw [if_pos h1] at h
    simp at h
  · rw [if_neg h1] at h ⊢
    by_cases h2 : (pushHistory fb.perp_history d).length < 2
    · rw [if_pos h2] at h
      simp at h
    · rw [if_neg h2] at h ⊢
      by_cases h3 : fb.prev_perp_dist * d < 0
      · rw [if_pos h3] at h ⊢
        by_cases h4 : STRUM_VELOCITY_THRESHOLD < |d - fb.prev_perp_dist|
        · rw [if_pos h4]
          exact ⟨Nat.eq_zero_of_not_pos h1, h3, h4, rfl⟩
        · rw [if_neg h4] at h
          simp at h
      · rw [if_neg h3] at h
        simp at h

theorem detect_strum_cooldown_ge (fb : FretboardState) (d : ℚ) :
    fb.strum_cooldown - 1 ≤ (detect_strum fb d).1.strum_cooldown := by
  simp only [detect_strum]
  split_ifs with h1 <;> simp <;> omega

theorem runStrum_some_cond (ds : List ℚ) :
    ∀ (fb : FretboardState) (i : ℕ) (ev : StrumEvent),
      (runStrum fb ds)[i + 1]? = some (some ev) →
      ∃ p c, ds[i]? = some p ∧ ds[i + 1]? = some c ∧
        p * c < 0 ∧ STRUM_VELOCITY_THRESHOLD < |c - p| := by
  induction ds with
  | nil =>
    intro fb i ev h
    simp [runStrum] at h
  | cons d ds ih =>
    intro fb i ev h
    have h' : (runStrum (detect_strum fb d).1 ds)[i]? = some (some ev) := by
      simpa [runStrum] using h
    cases i with
    | zero =>
      cases ds with
      | nil => simp [runStrum] at h'
      | cons c ds2 =>
        have hd : (detect_strum (detect_strum fb d).1 c).2 = some ev := by
          simpa [runStrum] using h'
        have hs := detect_strum_some _ c ev hd
        have hprev : (detect_strum fb d).1.prev_perp_dist = d := detect_strum_prev fb d
        refine ⟨d, c, by simp, by simp, ?_, ?_⟩
        · rw [← hprev]
          exact hs.2.1
        · rw [← hprev]
          exact hs.2.2.1
    | succ j =>
      obtain ⟨p, c, hp, hc, hlt, hv⟩ := ih (detect_strum fb d).1 j ev h'
      exact ⟨p, c, by simpa using hp, by simpa using hc, hlt, hv⟩

theorem runStrum_cooldown_le (ds : List ℚ) :
    ∀ (fb : FretboardState) (k : ℕ) (ev : StrumEvent),
      (runStrum fb ds)[k]? = some (some ev) → fb.strum_cooldown ≤ k := by
  induction ds with
  | nil =>
    intro fb k ev h
    simp [runStrum] at h
  | cons d ds ih =>
    intro fb k ev h
    cases k with
    | zero =>
      have hd : (detect_strum fb d).2 = some ev := by simpa [runStrum] using h
      have := (detect_strum_some fb d ev hd).1
      omega
    | succ j =>
      have h2 : (runStrum (detect_strum fb d).1 ds)[j]? = some (some ev) := by
        simpa [runStrum] using h
      have hle := ih (detect_strum fb d).1 j ev h2
      have hc := detect_strum_cooldown_ge fb d
      omega

theorem runStrum_spacing (ds : List ℚ) :
    ∀ (fb : FretboardState) (i j : ℕ) (e1 e2 : StrumEvent),
      (runStrum fb ds)[i]? = some (some e1) →
      (runStrum fb ds)[j]? = some (some e2) →
      i < j → i + STRUM_COOLDOWN_FRAMES < j := by
  induction ds with
  | nil =>
    intro fb i j e1 e2 h1 _ _
    simp [runStrum] at h1
  | cons d ds ih =>
    intro fb i j e1 e2 h1 h2 hij
    cases i with
    | zero =>
      have hd : (detect_strum fb d).2 = some e1 := by simpa [runStrum] using h1
      have h4 : (detect_strum fb d).1.strum_cooldown = STRUM_COOLDOWN_FRAMES :=
        (detect_strum_some fb d e1 hd).2.2.2
      obtain ⟨j2, rfl⟩ : ∃ j2, j = j2 + 1 := ⟨j - 1, by omega⟩
      have h2' : (runStrum (detect_strum fb d).1 ds)[j2]? = some (some e2) := by
        simpa [runStrum] using h2
      have hcool := runStrum_cooldown_le ds (detect_strum fb d).1 j2 e2 h2'
      rw [h4] at hcool
      omega
    | succ i2 =>
      obtain ⟨j2, rfl⟩ : ∃ j2, j = j2 + 1 := ⟨j - 1, by omega⟩
      have h1' : (runStrum (detect_strum fb d).1 ds)[i2]? = some (some e1) := by
        simpa [runStrum] using h1
      have h2' : (runStrum (detect_strum fb d).1 ds)[j2]? = some (some e2) := by
        simpa [runStrum] using h2
      have := ih (detect_strum fb d).1 i2 j2 e1 e2 h1' h2' (by omega)
      omega

/-- C5: feeding any perpendicular-distance sequence through
`detect_strum` from the idle state, an event can appear at tick `i`
only when the previous tick's sample and this tick's sample have
strictly opposite signs and the absolute change exceeds
`STRUM_VELOCITY_THRESHOLD`; and two events are never within
`STRUM_COOLDOWN_FRAMES` ticks of each other. -/
theorem claim_C5 (samples : List ℚ) :
    (∀ (i : ℕ) (ev : StrumEvent),
        (runStrum initFretboard samples)[i]? = some (some ev) →
        1 ≤ i ∧ ∃ p c, samples[i - 1]? = some p ∧ samples[i]? = some c ∧
          p * c < 0 ∧ STRUM_VELOCITY_THRESHOLD < |c - p|) ∧
    (∀ (i j : ℕ) (e1 e2 : StrumEvent),
        (runStrum initFretboard samples)[i]? = some (some e1) →
        (runStrum initFretboard samples)[j]? = some (some e2) →
        i < j → i + STRUM_COOLDOWN_FRAMES < j) := by
  constructor
  · intro i ev h
    cases i with
    | zero =>
      exfalso
      cases samples with
      | nil => simp [runStrum] at h
      | cons d ds =>
        have hd : (detect_strum initFretboard d).2 = some ev := by
          simpa [runStrum] using h
        simp [detect_strum, initFretboard, pushHistory] at hd
    | succ k =>
      refine ⟨by omega, ?_⟩
      have := runStrum_some_cond samples initFretboard k ev h
      simpa using this
  · intro i j e1 e2 h1 h2 hij
    exact runStrum_spacing samples initFretboard i j e1 e2 h1 h2 hij

/-- C5 witness: the two-sample sequence 1/100, −1/100 produces an
up-strum event at tick 1 (crossing of magnitude 1/50 > 0.008). -/
theorem claim_C5_witness :
    1 ≤ 1 ∧ ∃ p c, ([(1 : ℚ)/100, -1/100])[1 - 1]? = some p ∧
      ([(1 : ℚ)/100, -1/100])[1]? = some c ∧
      p * c < 0 ∧ STRUM_VELOCITY_THRESHOLD < |c - p| :=
  (claim_C5 [(1 : ℚ)/100, -1/100]).1 1 { direction := "up", velocity := 1/50 }
    (by norm_num [runStrum, detect_strum, pushHistory, initFretboard,
      STRUM_VELOCITY_THRESHOLD, STRUM_COOLDOWN_FRAMES, abs])

theorem lookup_dictSet (d : List (ℤ × ℕ)) (k : ℤ) (v : ℕ) :
    (dictSet d k v).lookup k = some v := by
  induction d with
  | nil => simp [dictSet, List.lookup]
  | cons p rest ih =>
    by_cases h : p.1 = k
    · simp [dictSet, h, List.lookup]
    · have hbeq : (k == p.1) = false := by simpa using Ne.symm h
      simp only [dictSet, if_neg h, List.lookup, hbeq]
      exact ih

theorem dictGet_dictSet (d : List (ℤ × ℕ)) (k : ℤ) (v : ℕ) :
    dictGet (dictSet d k v) k = v := by
  simp [dictGet, lookup_dictSet]

theorem play_note_eq (s : AudioState) (mn v : ℤ) (d : ℚ) (h : s.ready = true) :
    play_note s mn v d =
      ({ s with
          note_gen := dictSet s.note_gen (max 0 (min 127 mn))
            (dictGet s.note_gen (max 0 (min 127 mn)) + 1),
          log := s.log ++ [AudioMsg.noteon (max 0 (min 127 mn)) (max 0 (min 127 v))] },
       some (max 0 (min 127 mn), dictGet s.note_gen (max 0 (min 127 mn)) + 1)) := by
  simp [play_note, h]

theorem note_off_stale (s : AudioState) (mn : ℤ) (g : ℕ)
    (h : dictGet s.note_gen mn ≠ g) : note_off s mn g = s := by
  by_cases hr : s.ready <;> simp [note_off, hr, h]

theorem note_off_current (s : AudioState) (mn : ℤ) (g : ℕ)
    (hr : s.ready = true) (h : dictGet s.note_gen mn = g) :
    note_off s mn g = { s with log := s.log ++ [AudioMsg.noteoff mn] } := by
  simp [note_off, hr, h]

/-- C6: retriggering a pitch before its scheduled note-off fires leaves
exactly one note-off for that pitch once both timers run (in either
order): the timer that captured the still-current generation sends it,
and the stale timer's callback is a no-op. -/
theorem claim_C6 (s0 : AudioState) (note v1 v2 : ℤ) (d1 d2 : ℚ)
    (hready : s0.ready = true) :
    ∃ (n : ℤ) (g1 g2 : ℕ),
      (play_note s0 note v1 d1).2 = some (n, g1) ∧
      (play_note (play_note s0 note v1 d1).1 note v2 d2).2 = some (n, g2) ∧
      g1 ≠ g2 ∧
      note_off (play_note (play_note s0 note v1 d1).1 note v2 d2).1 n g1
        = (play_note (play_note s0 note v1 d1).1 note v2 d2).1 ∧
      countNoteoff (note_off (note_off
          (play_note (play_note s0 note v1 d1).1 note v2 d2).1 n g1) n g2).log n
        = countNoteoff (play_note (play_note s0 note v1 d1).1 note v2 d2).1.log n + 1 ∧
      note_off (note_off
          (play_note (play_note s0 note v1 d1).1 note v2 d2).1 n g2) n g1
        = note_off (play_note (play_note s0 note v1 d1).1 note v2 d2).1 n g2 ∧
      countNoteoff (note_off (note_off
          (play_note (play_note s0 note v1 d1).1 note v2 d2).1 n g2) n g1).log n
        = countNoteoff (play_note (play_note s0 note v1 d1).1 note v2 d2).1.log n + 1 := by
  have hp1 := play_note_eq s0 note v1 d1 hready
  have h1ready : (play_note s0 note v1 d1).1.ready = true := by
    rw [hp1]
    exact hready
  have hp2 := play_note_eq (play_note s0 note v1 d1).1 note v2 d2 h1ready
  have h1gen : dictGet (play_note s0 note v1 d1).1.note_gen (max 0 (min 127 note))
      = dictGet s0.note_gen (max 0 (min 127 note)) + 1 := by
    rw [hp1]
    simp [dictGet_dictSet]
  have h2ready : (play_note (play_note s0 note v1 d1).1 note v2 d2).1.ready = true := by
    rw [hp2]
    exact h1ready
  have h2gen : dictGet (play_note (play_note s0 note v1 d1).1 note v2 d2).1.note_gen
      (max 0 (min 127 note)) = dictGet s0.note_gen (max 0 (min 127 note)) + 2 := by
    rw [hp2]
    simp [dictGet_dictSet, h1gen]
  have hstale : note_off (play_note (play_note s0 note v1 d1).1 note v2 d2).1
      (max 0 (min 127 note)) (dictGet s0.note_gen (max 0 (min 127 note)) + 1)
      = (play_note (play_note s0 note v1 d1).1 note v2 d2).1 :=
    note_off_stale _ _ _ (by rw [h2gen]; omega)
  have hfresh : note_off (play_note (play_note s0 note v1 d1).1 note v2 d2).1
      (max 0 (min 127 note)) (dictGet s0.note_gen (max 0 (min 127 note)) + 2)
      = { (play_note (play_note s0 note v1 d1).1 note v2 d2).1 with
          log := (play_note (play_note s0 note v1 d1).1 note v2 d2).1.log
            ++ [AudioMsg.noteoff (max 0 (min 127 note))] } :=
    note_off_current _ _ _ h2ready h2gen
  have hstale2 : note_off
      ({ (play_note (play_note s0 note v1 d1).1 note v2 d2).1 with
          log := (play_note (play_note s0 note v1 d1).1 note v2 d2).1.log
            ++ [AudioMsg.noteoff (max 0 (min 127 note))] } : AudioState)
      (max 0 (min 127 note)) (dictGet s0.note_gen (max 0 (min 127 note)) + 1)
      = { (play_note (play_note s0 note v1 d1).1 note v2 d2).1 with
          log := (play_note (play_note s0 note v1 d1).1 note v2 d2).1.log
            ++ [AudioMsg.noteoff (max 0 (min 127 note))] } := by
    apply note_off_stale
    show dictGet (play_note (play_note s0 note v1 d1).1 note v2 d2).1.note_gen
        (max 0 (min 127 note)) ≠ dictGet s0.note_gen (max 0 (min 127 note)) + 1
    rw [h2gen]
    omega
  refine ⟨max 0 (min 127 note), dictGet s0.note_gen (max 0 (min 127 note)) + 1,
    dictGet s0.note_gen (max 0 (min 127 note)) + 2, ?_, ?_, by omega, hstale, ?_, ?_, ?_⟩
  · rw [hp1]
  · rw [hp2, h1gen]
  · rw [hstale, hfresh]
    simp [countNoteoff]
  · rw [hfresh]
    exact hstale2
  · rw [hfresh, hstale2]
    simp [countNoteoff]

/-- C6 witness: a ready engine, pitch 60 triggered twice. -/
theorem claim_C6_witness :
    ∃ (n : ℤ) (g1 g2 : ℕ),
      (play_note (initAudio true) 60 100 1).2 = some (n, g1) ∧
      (play_note (play_note (initAudio true) 60 100 1).1 60 90 2).2 = some (n, g2) ∧
      g1 ≠ g2 ∧
      note_off (play_note (play_note (initAudio true) 60 100 1).1 60 90 2).1 n g1
        = (play_note (play_note (initAudio true) 60 100 1).1 60 90 2).1 ∧
      countNoteoff (note_off (note_off
          (play_note (play_note (initAudio true) 60 100 1).1 60 90 2).1 n g1) n g2).log n
        = countNoteoff (play_note (play_note (initAudio true) 60 100 1).1 60 90 2).1.log n + 1 ∧
      note_off (note_off
          (play_note (play_note (initAudio true) 60 100 1).1 60 90 2).1 n g2) n g1
        = note_off (play_note (play_note (initAudio true) 60 100 1).1 60 90 2).1 n g2 ∧
      countNoteoff (note_off (note_off
          (play_note (play_note (initAudio true) 60 100 1).1 60 90 2).1 n g2) n g1).log n
        = countNoteoff (play_note (play_note (initAudio true) 60 100 1).1 60 90 2).1.log n + 1 :=
  claim_C6 (initAudio true) 60 100 90 1 2 rfl

theorem le_pyRound (q : ℚ) : ⌊q⌋ ≤ pyRound q := by
  unfold pyRound
  split_ifs <;> omega

theorem pyRound_le (q : ℚ) : pyRound q ≤ ⌊q⌋ + 1 := by
  unfold pyRound
  split_ifs <;> omega

theorem pyRound_mono {x y : ℚ} (h : x ≤ y) : pyRound x ≤ pyRound y := by
  have hf : ⌊x⌋ ≤ ⌊y⌋ := Int.floor_le_floor h
  rcases eq_or_lt_of_le hf with heq | hlt
  · have hxy : x - (⌊x⌋ : ℚ) ≤ y - (⌊x⌋ : ℚ) := by linarith
    unfold pyRound
    rw [← heq]
    split_ifs <;> first | omega | (exfalso; linarith)
  · calc pyRound x ≤ ⌊x⌋ + 1 := pyRound_le x
    _ ≤ ⌊y⌋ := by omega
    _ ≤ pyRound y := le_pyRound y

theorem pyRound3_mono {x y : ℚ} (h : x ≤ y) : pyRound3 x ≤ pyRound3 y := by
  unfold pyRound3
  have h1000 : x * 1000 ≤ y * 1000 := by linarith
  have hc : ((pyRound (x * 1000) : ℤ) : ℚ) ≤ ((pyRound (y * 1000) : ℤ) : ℚ) := by
    exact_mod_cast pyRound_mono h1000
  gcongr

theorem record_fold (calls : List RecordCall) :
    ∀ (r : MidiRecorder), r.recording = true →
      (calls.foldl
          (fun a c => a.record c.at_time c.midi_note c.velocity c.duration c.name)
          r).events
        = r.events ++ calls.map (fun c =>
            { time := pyRound3 (c.at_time - r.start_time), midi_note := c.midi_note,
              velocity := c.velocity, duration := pyRound3 c.duration,
              name := c.name }) := by
  induction calls with
  | nil =>
    intro r _
    simp
  | cons c cs ih =>
    intro r h
    rw [List.foldl_cons]
    rw [ih (r.record c.at_time c.midi_note c.velocity c.duration c.name)
      (by simp [MidiRecorder.record, h])]
    simp [MidiRecorder.record, h]

theorem recorderRun_eq (t0 : ℚ) (calls : List RecordCall) :
    recorderRun t0 calls = calls.map (fun c =>
      { time := pyRound3 (c.at_time - t0), midi_note := c.midi_note,
        velocity := c.velocity, duration := pyRound3 c.duration,
        name := c.name }) := by
  unfold recorderRun MidiRecorder.stop
  rw [record_fold calls (initRecorder.start t0) (by simp [MidiRecorder.start])]
  simp [MidiRecorder.start]

/-- C8: a recorder run (start at `t0`, then `record` calls at
non-decreasing wall-clock times, then stop) returns exactly one event
per call, whose `time` fields are the call times relative to `t0`
(rounded to 3 decimals, the recorder's own rounding) and are
monotonically non-decreasing. -/
theorem claim_C8 (t0 : ℚ) (calls : List RecordCall)
    (hmono : List.Chain' (fun a b => a.at_time ≤ b.at_time) calls) :
    recorderRun t0 calls = calls.map (fun c =>
      { time := pyRound3 (c.at_time - t0), midi_note := c.midi_note,
        velocity := c.velocity, duration := pyRound3 c.duration,
        name := c.name }) ∧
    (recorderRun t0 calls).length = calls.length ∧
    List.Chain' (fun a b => a.time ≤ b.time) (recorderRun t0 calls) := by
  refine ⟨recorderRun_eq t0 calls, ?_, ?_⟩
  · rw [recorderRun_eq]
    simp
  · rw [recorderRun_eq, List.chain'_map]
    exact hmono.imp (fun a b hab => pyRound3_mono (by linarith))

/-- C8 witness: three notes at simulated times 0.10 s, 0.45 s, 1.02 s
after a start at time 0. -/
theorem claim_C8_witness :
    recorderRun 0 ([{ at_time := 1/10, midi_note := 60, velocity := 79,
                      duration := 2, name := "C4" },
                    { at_time := 9/20, midi_note := 64, velocity := 79,
                      duration := 2, name := "E4" },
                    { at_time := 51/50, midi_note := 67, velocity := 79,
                      duration := 2, name := "G4" }] : List RecordCall)
      = ([{ at_time := 1/10, midi_note := 60, velocity := 79,
            duration := 2, name := "C4" },
          { at_time := 9/20, midi_note := 64, velocity := 79,
            duration := 2, name := "E4" },
          { at_time := 51/50, midi_note := 67, velocity := 79,
            duration := 2, name := "G4" }] : List RecordCall).map (fun c =>
        { time := pyRound3 (c.at_time - 0), midi_note := c.midi_note,
          velocity := c.velocity, duration := pyRound3 c.duration,
          name := c.name }) ∧
    (recorderRun 0 ([{ at_time := 1/10, midi_note := 60, velocity := 79,
                       duration := 2, name := "C4" },
                     { at_time := 9/20, midi_note := 64, velocity := 79,
                       duration := 2, name := "E4" },
                     { at_time := 51/50, midi_note := 67, velocity := 79,
                       duration := 2, name := "G4" }] : List RecordCall)).length = 3 ∧
    List.Chain' (fun a b => a.time ≤ b.time)
      (recorderRun 0 ([{ at_time := 1/10, midi_note := 60, velocity := 79,
                         duration := 2, name := "C4" },
                       { at_time := 9/20, midi_note := 64, velocity := 79,
                         duration := 2, name := "E4" },
                       { at_time := 51/50, midi_note := 67, velocity := 79,
                         duration := 2, name := "G4" }] : List RecordCall)) :=
  claim_C8 0 ([{ at_time := 1/10, midi_note := 60, velocity := 79,
                 duration := 2, name := "C4" },
               { at_time := 9/20, midi_note := 64, velocity := 79,
                 duration := 2, name := "E4" },
               { at_time := 51/50, midi_note := 67, velocity := 79,
                 duration := 2, name := "G4" }] : List RecordCall)
    (by norm_num [List.chain'_cons])
